import Mathlib

/-!
Shallow embedding of the goose provider layer
(`crates/goose/src/providers/anthropic.rs`, `groq.rs`, `ollama.rs`) and the
token tracker (`crates/goose/src/agents/token_tracker.rs`), together with
theorems settling the spec claims about error classification, model-list
fetching, and token-usage tracking.
-/

namespace Goose

/-- A JSON value, mirroring `serde_json::Value`. Numbers are modelled as
integers (no claim inspects numeric bodies); objects are association lists
with the first binding of a key authoritative, matching `Map::get`. -/
inductive Json where
  | null : Json
  | bool (b : Bool) : Json
  | num (n : Int) : Json
  | str (s : String) : Json
  | arr (xs : List Json) : Json
  | obj (kvs : List (String × Json)) : Json

namespace Json

/-- `Value::get(key)`: field lookup, `None` on non-objects, mirroring
`serde_json`. -/
def get (j : Json) (key : String) : Option Json :=
  match j with
  | .obj kvs => kvs.lookup key
  | _ => none

/-- `Value::as_str()`. -/
def asStr : Json → Option String
  | .str s => some s
  | _ => none

/-- `Value::as_array()`. -/
def asArray : Json → Option (List Json)
  | .arr xs => some xs
  | _ => none

/-- `Value::as_object()` restricted to what the sources use: returns the
association list when the value is an object. -/
def asObject : Json → Option (List (String × Json))
  | .obj kvs => some kvs
  | _ => none

/-- The `Debug` rendering of a `serde_json::Value` (as produced by the
`format` debug specifier in the error messages), up to string escaping,
which no claim inspects. -/
def fmtDebug : Json → String
  | .null => "Null"
  | .bool b => "Bool(" ++ (if b then "true" else "false") ++ ")"
  | .num n => "Number(" ++ toString n ++ ")"
  | .str s => "String(\"" ++ s ++ "\")"
  | .arr xs => "Array [" ++ String.intercalate ", " (xs.attach.map (fun x => fmtDebug x.1)) ++ "]"
  | .obj kvs => "Object \x7b" ++
      String.intercalate ", " (kvs.attach.map (fun kv => "\"" ++ kv.1.1 ++ "\": " ++ fmtDebug kv.1.2)) ++ "\x7d"
decreasing_by
  · have := List.sizeOf_lt_of_mem x.2
    simp only [arr.sizeOf_spec]
    omega
  · have h1 := List.sizeOf_lt_of_mem kv.2
    have h2 : sizeOf kv.1.2 < sizeOf kv.1 := by
      rcases kv with ⟨⟨a, b⟩, hm⟩
      simp
    simp only [obj.sizeOf_spec]
    omega

/-- The `Debug` rendering of an `Option` of a JSON value. -/
def fmtDebugOpt : Option Json → String
  | none => "None"
  | some j => "Some(" ++ fmtDebug j ++ ")"

end Json

/-- The closed error taxonomy `ProviderError` from `providers/errors.rs`,
restricted to the variants the provided sources construct, each carrying its
message string. -/
inductive ProviderError where
  | Authentication (msg : String) : ProviderError
  | ContextLengthExceeded (msg : String) : ProviderError
  | RateLimitExceeded (msg : String) : ProviderError
  | ServerError (msg : String) : ProviderError
  | RequestFailed (msg : String) : ProviderError
  | UsageError (msg : String) : ProviderError
deriving DecidableEq

/-- The bare kind of a `ProviderError`, used to state classification claims
that do not constrain the message text. -/
inductive ErrorKind where
  | authentication | contextLengthExceeded | rateLimitExceeded
  | serverError | requestFailed | usageError
deriving DecidableEq

def ProviderError.kind : ProviderError → ErrorKind
  | .Authentication _ => .authentication
  | .ContextLengthExceeded _ => .contextLengthExceeded
  | .RateLimitExceeded _ => .rateLimitExceeded
  | .ServerError _ => .serverError
  | .RequestFailed _ => .requestFailed
  | .UsageError _ => .usageError

/-- The kind of the error of a fallible outcome, `none` on success. -/
def errKind {α : Type} : Except ProviderError α → Option ErrorKind
  | .error e => some e.kind
  | .ok _ => none

/-- The `Display` rendering of an HTTP `StatusCode` (code plus canonical
reason) for the statuses the classifiers distinguish; other codes render as
the bare number. -/
def statusDisplay (s : Nat) : String :=
  match s with
  | 200 => "200 OK"
  | 400 => "400 Bad Request"
  | 401 => "401 Unauthorized"
  | 403 => "403 Forbidden"
  | 404 => "404 Not Found"
  | 413 => "413 Payload Too Large"
  | 429 => "429 Too Many Requests"
  | 500 => "500 Internal Server Error"
  | 502 => "502 Bad Gateway"
  | 503 => "503 Service Unavailable"
  | _ => toString s

/-- Substring test on character lists (`str::contains` with a string
pattern). -/
def charsHaveSub (needle : List Char) : List Char → Bool
  | [] => needle.isEmpty
  | c :: rest => needle.isPrefixOf (c :: rest) || charsHaveSub needle rest

/-- `haystack.to_lowercase().contains(needle)`: character-wise simple
lowercasing (identical to Rust full lowercasing on the ASCII patterns
used), then substring search. -/
def containsLower (haystack needle : String) : Bool :=
  charsHaveSub needle.toList (haystack.toList.map Char.toLower)

/-- Lexicographic comparison of character lists by code point, mirroring
the byte-wise `Ord` that Rust's `sort()` applies to UTF-8 strings (UTF-8
byte order coincides with code-point order). -/
def charListLe : List Char → List Char → Bool
  | [], _ => true
  | _ :: _, [] => false
  | a :: as, b :: bs =>
    if a.toNat < b.toNat then true
    else if b.toNat < a.toNat then false
    else charListLe as bs

/-- The string ordering `Vec<String>::sort` sorts by. -/
def strLe (x y : String) : Bool := charListLe x.toList y.toList

namespace Anthropic

/-- `AnthropicProvider::post` after the HTTP exchange (anthropic.rs lines
87-125): classification of the status and the best-effort parsed body
(`none` when the body is not valid JSON) into the successful JSON value or
one `ProviderError`. -/
def post (status : Nat) (payload : Option Json) : Except ProviderError Json :=
  match status with
  | 200 =>
    match payload with
    | some p => .ok p
    | none => .error (.RequestFailed "Response body is not valid JSON")
  | 401 | 403 =>
    .error (.Authentication ("Authentication failed. Please ensure your API keys are valid and have the required permissions. Status: "
      ++ statusDisplay status ++ ". Response: " ++ Json.fmtDebugOpt payload))
  | 400 =>
    match payload.bind (fun p => p.get "error") with
    | some e =>
      let error_msg := ((e.get "message").bind Json.asStr).getD "Unknown error"
      if containsLower error_msg "too long" || containsLower error_msg "too many" then
        .error (.ContextLengthExceeded error_msg)
      else
        .error (.RequestFailed ("Request failed with status: " ++ statusDisplay 400
          ++ ". Message: " ++ error_msg))
    | none =>
      .error (.RequestFailed ("Request failed with status: " ++ statusDisplay 400
        ++ ". Message: " ++ "Unknown error"))
  | 429 => .error (.RateLimitExceeded (Json.fmtDebugOpt payload))
  | 500 | 503 => .error (.ServerError (Json.fmtDebugOpt payload))
  | _ => .error (.RequestFailed ("Request failed with status: " ++ statusDisplay status))

/-- The non-2xx handling inside `AnthropicProvider::stream` (anthropic.rs
lines 293-300): unlike `complete`, `stream` does not reuse the `post`
classifier and returns `RequestFailed` for every unsuccessful status,
carrying the raw body text. -/
def streamStatusCheck (status : Nat) (error_text : String) : Except ProviderError Unit :=
  if 200 ≤ status ∧ status ≤ 299 then .ok ()
  else .error (.RequestFailed ("Streaming request failed with status: "
    ++ statusDisplay status ++ ". Error: " ++ error_text))

/-- Extraction of one model id from an element of the `models` array:
string elements are taken verbatim, object elements contribute their `id`
string field, anything else is skipped (anthropic.rs lines 232-241). -/
def modelId (m : Json) : Option String :=
  match m.asStr with
  | some s => some s
  | none =>
    match m.asObject with
    | some o => (o.lookup "id").bind Json.asStr
    | none => none

/-- `AnthropicProvider::fetch_supported_models_async` after the HTTP
exchange, on the parsed response body (the code never looks at the HTTP
status; a body that fails to parse surfaces as a transport error before
this logic runs). -/
def fetch_supported_models_async (json : Json) : Except ProviderError (Option (List String)) :=
  match (json.get "models").bind Json.asArray with
  | none => .ok none
  | some a => .ok (some ((a.filterMap modelId).mergeSort strLe))

end Anthropic

namespace Groq

/-- `GroqProvider::post` after the HTTP exchange (groq.rs lines 73-97). -/
def post (status : Nat) (response_payload : Option Json) : Except ProviderError Json :=
  let formatted_payload := Json.fmtDebugOpt response_payload
  match status with
  | 200 =>
    match response_payload with
    | some p => .ok p
    | none => .error (.RequestFailed "Response body is not valid JSON")
  | 401 | 403 =>
    .error (.Authentication ("Authentication failed. Please ensure your API keys are valid and have the required permissions. Status: "
      ++ statusDisplay status ++ ". Response: " ++ Json.fmtDebugOpt response_payload))
  | 413 => .error (.ContextLengthExceeded formatted_payload)
  | 429 => .error (.RateLimitExceeded formatted_payload)
  | 500 | 503 => .error (.ServerError formatted_payload)
  | _ =>
    .error (.RequestFailed ("Provider request failed with status: "
      ++ statusDisplay status ++ ". Payload: " ++ Json.fmtDebugOpt response_payload))

/-- `GroqProvider::fetch_supported_models_async` after the HTTP exchange
(groq.rs lines 170-205): takes the status and the body parse attempt
(`none` when the body is not valid JSON). The `error`-object check runs
before and regardless of the status check. -/
def fetch_supported_models_async (status : Nat) (body : Option Json) :
    Except ProviderError (Option (List String)) :=
  match body with
  | none => .error (.RequestFailed "Response body is not valid JSON")
  | some payload =>
    match payload.get "error" with
    | some err_obj =>
      .error (.Authentication (((err_obj.get "message").bind Json.asStr).getD "unknown error"))
    | none =>
      if status = 200 then
        match (payload.get "data").bind Json.asArray with
        | none => .error (.UsageError "Missing or invalid `data` field in response")
        | some data =>
          .ok (some ((data.filterMap (fun m => (m.get "id").bind Json.asStr)).mergeSort strLe))
      else
        .error (.RequestFailed ("Groq API returned error status: "
          ++ statusDisplay status ++ ". Payload: " ++ Json.fmtDebug payload))

end Groq

/-- Token usage counts. Modelled from the spec: the `Usage` struct lives in
`providers/base.rs`, which is not among the provided sources; spec 3 gives
it optional `input_tokens`, `output_tokens`, `total_tokens` (signed 32-bit
in the code, here unbounded integers), partial knowledge allowed. -/
structure Usage where
  input_tokens : Option Int
  output_tokens : Option Int
  total_tokens : Option Int
deriving DecidableEq

namespace Usage

/-- `Usage::default()`: every field unknown. -/
def default : Usage := ⟨none, none, none⟩

/-- Modelled from the spec: the field-wise behaviour of the missing
`AddAssign for Usage` of `providers/base.rs`. Spec 4.1: field-wise
addition; a field stays unknown only if every contributing update left it
unknown, otherwise unknowns are treated as zero. -/
def addField : Option Int → Option Int → Option Int
  | none, none => none
  | a, b => some (a.getD 0 + b.getD 0)

/-- Field-wise addition of two usages (spec 3: fields combine additively). -/
def add (u v : Usage) : Usage :=
  ⟨addField u.input_tokens v.input_tokens,
   addField u.output_tokens v.output_tokens,
   addField u.total_tokens v.total_tokens⟩

end Usage

/-- A `Usage` paired with the model identifier that produced it
(`providers/base.rs`). -/
structure ProviderUsage where
  model : String
  usage : Usage

/-- The session token tracker (`agents/token_tracker.rs`). The `f64`
percentage arithmetic of the source is carried over the rationals; on every
value the claims exercise the two agree, including the integer truncations
printed in the warning messages. -/
structure TokenTracker where
  current_usage : Usage
  context_limit : Option Nat
  warning_80_shown : Bool
  warning_90_shown : Bool
deriving DecidableEq

/-- The truncation toward zero performed by the `as i32` cast on the
(finite, in-range) percentage value. -/
def ratTrunc (q : ℚ) : Int :=
  if 0 ≤ q then ((q.num.toNat / q.den : Nat) : Int)
  else -((((-q).num.toNat / q.den : Nat) : Int))

namespace TokenTracker

/-- `TokenTracker::new`. -/
def new : TokenTracker :=
  { current_usage := Usage.default
    context_limit := none
    warning_80_shown := false
    warning_90_shown := false }

/-- `TokenTracker::update_usage`. -/
def update_usage (t : TokenTracker) (usage : ProviderUsage) : TokenTracker :=
  { t with current_usage := t.current_usage.add usage.usage }

/-- `TokenTracker::set_context_limit`. -/
def set_context_limit (t : TokenTracker) (limit : Nat) : TokenTracker :=
  { t with context_limit := some limit }

/-- `TokenTracker::usage_percentage`: `(used / limit) * 100` when both the
total and the limit are known. -/
def usage_percentage (t : TokenTracker) : Option ℚ :=
  match t.current_usage.total_tokens, t.context_limit with
  | some used, some limit => some ((used : ℚ) / (limit : ℚ) * 100)
  | _, _ => none

/-- `TokenTracker::token_counts`. -/
def token_counts (t : TokenTracker) : Option (Int × Nat) :=
  match t.current_usage.total_tokens, t.context_limit with
  | some used, some limit => some (used, limit)
  | _, _ => none

/-- `TokenTracker::check_warning`: returns the emitted message (if any)
together with the tracker state after the call, mirroring the flag
mutations of the source (the 90% flag is set before `token_counts` is
consulted, as in the Rust, where the early-return operator leaves the
already-assigned flag in place). -/
def check_warning (t : TokenTracker) : Option String × TokenTracker :=
  match t.usage_percentage with
  | none => (none, t)
  | some percentage =>
    if (90 : ℚ) ≤ percentage ∧ t.warning_90_shown = false then
      let t' := { t with warning_90_shown := true }
      match t'.token_counts with
      | some (used, limit) =>
        (some ("WARNING: Approaching context limit! Used " ++ toString used ++ " of "
          ++ toString limit ++ " tokens (" ++ toString (ratTrunc percentage) ++ "%)"), t')
      | none => (none, t')
    else if (80 : ℚ) ≤ percentage ∧ t.warning_80_shown = false then
      let t' := { t with warning_80_shown := true }
      match t'.token_counts with
      | some (used, limit) =>
        (some ("Context usage at " ++ toString (ratTrunc percentage) ++ "% ("
          ++ toString used ++ " of " ++ toString limit ++ " tokens)"), t')
      | none => (none, t')
    else (none, t)

/-- `TokenTracker::status`. -/
def status (t : TokenTracker) : String :=
  match t.token_counts with
  | some (used, limit) =>
    let percentage := (t.usage_percentage).getD 0
    "Token usage: " ++ toString used ++ " / " ++ toString limit
      ++ " (" ++ toString (ratTrunc percentage) ++ "%)"
  | none =>
    match t.current_usage.total_tokens with
    | some used => "Token usage: " ++ toString used ++ " (no limit available)"
    | none => "Token usage: unavailable"

/-- `TokenTracker::reset`. -/
def reset (t : TokenTracker) : TokenTracker :=
  { t with current_usage := Usage.default
           warning_80_shown := false
           warning_90_shown := false }

end TokenTracker

/-- The ordering on optional token counts used to state that a known field
never decreases: a known value may only grow and never becomes unknown
again. -/
def optLe : Option Int → Option Int → Prop
  | some v, some w => v ≤ w
  | some _, none => False
  | none, _ => True

/-- Field-wise monotonicity of the tracker state: known usage fields never
decrease and warning flags, once true, stay true. -/
def trackerMono (t t' : TokenTracker) : Prop :=
  optLe t.current_usage.input_tokens t'.current_usage.input_tokens ∧
  optLe t.current_usage.output_tokens t'.current_usage.output_tokens ∧
  optLe t.current_usage.total_tokens t'.current_usage.total_tokens ∧
  (t.warning_80_shown = true → t'.warning_80_shown = true) ∧
  (t.warning_90_shown = true → t'.warning_90_shown = true)

/-- A field of a usage delta is non-negative when it is unknown or carries
a non-negative count. -/
def optNonneg (o : Option Int) : Prop := ∀ v, o = some v → 0 ≤ v

/-- A field-wise non-negative usage delta. -/
def Usage.nonneg (u : Usage) : Prop :=
  optNonneg u.input_tokens ∧ optNonneg u.output_tokens ∧ optNonneg u.total_tokens

/-- One tracker operation other than `reset`: every mutating entry point
plus the read-only accessors (which leave the state unchanged). -/
inductive TrackerOp where
  | update (pu : ProviderUsage)
  | setLimit (n : Nat)
  | checkWarning
  | queryPercentage
  | queryCounts
  | queryStatus

/-- The state transition of one tracker operation. -/
def TrackerOp.apply (t : TokenTracker) : TrackerOp → TokenTracker
  | .update pu => t.update_usage pu
  | .setLimit n => t.set_context_limit n
  | .checkWarning => (t.check_warning).2
  | .queryPercentage => t
  | .queryCounts => t
  | .queryStatus => t

/-- Running a sequence of tracker operations from a starting state. -/
def TrackerOp.run (t : TokenTracker) (ops : List TrackerOp) : TokenTracker :=
  ops.foldl TrackerOp.apply t

end Goose

namespace Goose

/-- C8: for every tracker state, `reset()` restores the default all-unknown
usage and clears both warning flags, while `context_limit` is left
unchanged. -/
theorem C8_reset_frame (t : TokenTracker) :
    (t.reset).current_usage = Usage.default ∧
    (t.reset).warning_80_shown = false ∧
    (t.reset).warning_90_shown = false ∧
    (t.reset).context_limit = t.context_limit :=
  ⟨rfl, rfl, rfl, rfl⟩

/-- C7: `usage_percentage()` is `None` iff `total_tokens` or
`context_limit` is unset; when both are set it equals `100*used/limit`. -/
theorem C7_usage_percentage (t : TokenTracker) :
    (t.usage_percentage = none ↔
      (t.current_usage.total_tokens = none ∨ t.context_limit = none)) ∧
    (∀ used limit, t.current_usage.total_tokens = some used →
      t.context_limit = some limit →
      t.usage_percentage = some (100 * (used : ℚ) / (limit : ℚ))) := by
  constructor
  · rcases h1 : t.current_usage.total_tokens with _ | u <;>
      rcases h2 : t.context_limit with _ | l <;>
      simp [TokenTracker.usage_percentage, h1, h2]
  · intro used limit h1 h2
    simp only [TokenTracker.usage_percentage, h1, h2]
    congr 1
    ring

/-- Witness for C7 at a concrete tracker with 850 of 1000 tokens used. -/
theorem C7_usage_percentage_witness :
    ({ current_usage := ⟨none, none, some 850⟩, context_limit := some 1000,
       warning_80_shown := false, warning_90_shown := false } : TokenTracker).usage_percentage
      = some (100 * (850 : ℚ) / (1000 : ℚ)) :=
  (C7_usage_percentage _).2 850 1000 rfl rfl

set_option maxRecDepth 8192 in
/-- C3: the Anthropic classifier maps status 401 (any body) to
Authentication; status 400 whose error message contains
(case-insensitively) "too long" or "too many" to ContextLengthExceeded;
status 400 with an unrelated or missing message to RequestFailed carrying
the extracted message or "Unknown error"; status 429 to RateLimitExceeded;
and status 200 with an unparsable body to RequestFailed. -/
theorem C3_anthropic_classifier :
    (∀ payload, errKind (Anthropic.post 401 payload) = some .authentication) ∧
    (∀ p e msg, p.get "error" = some e →
      (e.get "message").bind Json.asStr = some msg →
      (containsLower msg "too long" || containsLower msg "too many") = true →
      Anthropic.post 400 (some p) = .error (.ContextLengthExceeded msg)) ∧
    (∀ p e msg, p.get "error" = some e →
      (e.get "message").bind Json.asStr = some msg →
      (containsLower msg "too long" || containsLower msg "too many") = false →
      Anthropic.post 400 (some p) =
        .error (.RequestFailed ("Request failed with status: 400 Bad Request. Message: " ++ msg))) ∧
    (∀ p, (p.get "error").bind (fun e => (e.get "message").bind Json.asStr) = none →
      Anthropic.post 400 (some p) =
        .error (.RequestFailed "Request failed with status: 400 Bad Request. Message: Unknown error")) ∧
    (∀ payload, errKind (Anthropic.post 429 payload) = some .rateLimitExceeded) ∧
    Anthropic.post 200 none = .error (.RequestFailed "Response body is not valid JSON") := by
  refine ⟨fun payload => rfl, ?_, ?_, ?_, fun payload => rfl, rfl⟩
  · intro p e msg h1 h2 h3
    simp only [Anthropic.post, Option.some_bind, h1, h2, Option.getD_some, h3, if_true]
  · intro p e msg h1 h2 h3
    simp only [Anthropic.post, Option.some_bind, h1, h2, Option.getD_some, h3,
      Bool.false_eq_true, if_false]
    rfl
  · intro p h
    rcases h1 : p.get "error" with _ | e
    · simp only [Anthropic.post, Option.some_bind, h1]
      rfl
    · rw [h1] at h
      simp only [Option.some_bind] at h
      simp only [Anthropic.post, Option.some_bind, h1, h, Option.getD_none]
      rfl

/-- Witness for C3 instantiating every clause: 401 with no body; 400 with
the message "prompt is too long"; 400 with the unrelated message "bad
schema"; 400 with an error object lacking a message; 429 with no body. -/
theorem C3_anthropic_classifier_witness :
    (errKind (Anthropic.post 401 none) = some .authentication) ∧
    (Anthropic.post 400 (some (.obj [("error", .obj [("message", .str "prompt is too long")])]))
      = .error (.ContextLengthExceeded "prompt is too long")) ∧
    (Anthropic.post 400 (some (.obj [("error", .obj [("message", .str "bad schema")])]))
      = .error (.RequestFailed "Request failed with status: 400 Bad Request. Message: bad schema")) ∧
    (Anthropic.post 400 (some (.obj [("error", .obj [])]))
      = .error (.RequestFailed "Request failed with status: 400 Bad Request. Message: Unknown error")) ∧
    (errKind (Anthropic.post 429 none) = some .rateLimitExceeded) :=
  ⟨C3_anthropic_classifier.1 none,
   C3_anthropic_classifier.2.1 _ _ "prompt is too long" rfl rfl (by decide),
   C3_anthropic_classifier.2.2.1 _ _ "bad schema" rfl rfl (by decide),
   C3_anthropic_classifier.2.2.2.1 _ rfl,
   C3_anthropic_classifier.2.2.2.2.1 none⟩

set_option maxRecDepth 4096 in
/-- C9: the Groq model-listing call returns an Authentication error
carrying the embedded message (or "unknown error") whenever the parsed
body contains an `error` object, for every HTTP status, 200 included. -/
theorem C9_groq_error_object (status : Nat) (p : Json)
    (h : (p.get "error").isSome = true) :
    Groq.fetch_supported_models_async status (some p) =
      .error (.Authentication
        (((p.get "error").bind (fun e => (e.get "message").bind Json.asStr)).getD
          "unknown error")) := by
  rcases h1 : p.get "error" with _ | e
  · rw [h1] at h
    simp at h
  · simp only [Groq.fetch_supported_models_async, h1, Option.some_bind]

/-- Witness for C9: a 200-status body embedding an error object. -/
theorem C9_groq_error_object_witness :
    ((Json.obj [("error", .obj [("message", .str "Invalid API Key")])]).get "error").isSome = true ∧
    Groq.fetch_supported_models_async 200
        (some (.obj [("error", .obj [("message", .str "Invalid API Key")])]))
      = .error (.Authentication "Invalid API Key") :=
  ⟨rfl, (C9_groq_error_object 200
    (.obj [("error", .obj [("message", .str "Invalid API Key")])]) rfl).trans (by rfl)⟩

/-- C2 counterexample: on a 401 response the `stream` path of the Anthropic
provider returns a generic RequestFailed, not the Authentication error the
claim requires of both `complete` and `stream`. -/
theorem C2_counterexample :
    errKind (Anthropic.streamStatusCheck 401 "") = some .requestFailed ∧
    ErrorKind.requestFailed ≠ ErrorKind.authentication :=
  ⟨rfl, by decide⟩

/-- C2 amended: `complete` classifies non-2xx responses through the 4.2
classifier — 401 and 403 yield Authentication — while `stream` maps every
non-2xx status, 401 and 403 included, to a generic RequestFailed. -/
theorem C2_amended :
    (∀ payload, errKind (Anthropic.post 401 payload) = some .authentication ∧
      errKind (Anthropic.post 403 payload) = some .authentication) ∧
    (∀ status text, ¬ (200 ≤ status ∧ status ≤ 299) →
      errKind (Anthropic.streamStatusCheck status text) = some .requestFailed) := by
  refine ⟨fun payload => ⟨rfl, rfl⟩, fun status text h => ?_⟩
  unfold Anthropic.streamStatusCheck
  rw [if_neg h]
  rfl

/-- Witness for the amended C2 at status 401 with a non-empty body text. -/
theorem C2_amended_witness :
    ¬ ((200 : Nat) ≤ 401 ∧ (401 : Nat) ≤ 299) ∧
    errKind (Anthropic.streamStatusCheck 401 "denied") = some .requestFailed :=
  ⟨by decide, C2_amended.2 401 "denied" (by decide)⟩

/-- C1: evaluation at the failing input. On a body that is valid JSON but
lacks the expected list key, the Anthropic fetch returns the "no data"
outcome, but the Groq fetch returns a UsageError — contradicting its own
doc comment ("returns Err on failure, Ok(None) if no models found"), which
never happens on any path. -/
theorem C1_missing_key_eval :
    Anthropic.fetch_supported_models_async (Json.obj []) = .ok none ∧
    Groq.fetch_supported_models_async 200 (some (Json.obj [])) =
      .error (.UsageError "Missing or invalid `data` field in response") :=
  ⟨rfl, rfl⟩

/-- C4: with the context limit 1000, after usage reaches 850 the first
`check_warning` returns the 80% message and flips only the 80% flag, an
immediately following call returns none, and after a further update brings
the total to 950 the next call returns the 90% message. -/
theorem C4_warning_sequence :
    (TokenTracker.new.set_context_limit 1000).update_usage
        ⟨"claude-3-5-sonnet-latest", ⟨none, none, some 850⟩⟩
      = ⟨⟨none, none, some 850⟩, some 1000, false, false⟩ ∧
    (⟨⟨none, none, some 850⟩, some 1000, false, false⟩ : TokenTracker).check_warning
      = (some "Context usage at 85% (850 of 1000 tokens)",
         ⟨⟨none, none, some 850⟩, some 1000, true, false⟩) ∧
    (⟨⟨none, none, some 850⟩, some 1000, true, false⟩ : TokenTracker).check_warning
      = (none, ⟨⟨none, none, some 850⟩, some 1000, true, false⟩) ∧
    (⟨⟨none, none, some 850⟩, some 1000, true, false⟩ : TokenTracker).update_usage
        ⟨"claude-3-5-sonnet-latest", ⟨none, none, some 100⟩⟩
      = ⟨⟨none, none, some 950⟩, some 1000, true, false⟩ ∧
    (⟨⟨none, none, some 950⟩, some 1000, true, false⟩ : TokenTracker).check_warning
      = (some "WARNING: Approaching context limit! Used 950 of 1000 tokens (95%)",
         ⟨⟨none, none, some 950⟩, some 1000, true, true⟩) := by
  have h85 : ((850 : Int) : ℚ) / ((1000 : Nat) : ℚ) * 100 = 85 := by norm_num
  have h95 : ((950 : Int) : ℚ) / ((1000 : Nat) : ℚ) * 100 = 95 := by norm_num
  refine ⟨by decide, ?_, ?_, by decide, ?_⟩
  · simp only [TokenTracker.check_warning, TokenTracker.usage_percentage,
      TokenTracker.token_counts, h85]
    norm_num [ratTrunc]
    rfl
  · simp only [TokenTracker.check_warning, TokenTracker.usage_percentage,
      TokenTracker.token_counts, h85]
    norm_num
  · simp only [TokenTracker.check_warning, TokenTracker.usage_percentage,
      TokenTracker.token_counts, h95]
    norm_num [ratTrunc]
    rfl

/-- C10: crossing from below 80% straight to 95% makes the first
`check_warning` return the 90% message and set only the 90% flag; the
immediately following call then returns the 80%-style message (not none),
because the 80% flag was never set. -/
theorem C10_skip_80_warning :
    (TokenTracker.new.set_context_limit 1000).update_usage
        ⟨"claude-3-5-sonnet-latest", ⟨none, none, some 950⟩⟩
      = ⟨⟨none, none, some 950⟩, some 1000, false, false⟩ ∧
    (⟨⟨none, none, some 950⟩, some 1000, false, false⟩ : TokenTracker).check_warning
      = (some "WARNING: Approaching context limit! Used 950 of 1000 tokens (95%)",
         ⟨⟨none, none, some 950⟩, some 1000, false, true⟩) ∧
    (⟨⟨none, none, some 950⟩, some 1000, false, true⟩ : TokenTracker).check_warning
      = (some "Context usage at 95% (950 of 1000 tokens)",
         ⟨⟨none, none, some 950⟩, some 1000, true, true⟩) := by
  have h95 : ((950 : Int) : ℚ) / ((1000 : Nat) : ℚ) * 100 = 95 := by norm_num
  refine ⟨by decide, ?_, ?_⟩
  · simp only [TokenTracker.check_warning, TokenTracker.usage_percentage,
      TokenTracker.token_counts, h95]
    norm_num [ratTrunc]
    rfl
  · simp only [TokenTracker.check_warning, TokenTracker.usage_percentage,
      TokenTracker.token_counts, h95]
    norm_num [ratTrunc]
    rfl

/-- Transitivity of the embedded Rust string ordering on character lists. -/
theorem charListLe_trans : ∀ (a b c : List Char),
    charListLe a b = true → charListLe b c = true → charListLe a c = true
  | [], _, _, _, _ => rfl
  | _ :: _, [], _, h1, _ => by simp [charListLe] at h1
  | _ :: _, _ :: _, [], _, h2 => by simp [charListLe] at h2
  | a :: as, b :: bs, c :: cs, h1, h2 => by
    simp only [charListLe] at h1 h2 ⊢
    by_cases hab : a.toNat < b.toNat
    · by_cases hbc : b.toNat < c.toNat
      · rw [if_pos (show a.toNat < c.toNat by omega)]
      · by_cases hcb : c.toNat < b.toNat
        · rw [if_neg hbc, if_pos hcb] at h2
          exact absurd h2 (by simp)
        · rw [if_pos (show a.toNat < c.toNat by omega)]
    · by_cases hba : b.toNat < a.toNat
      · rw [if_neg hab, if_pos hba] at h1
        exact absurd h1 (by simp)
      · rw [if_neg hab, if_neg hba] at h1
        by_cases hbc : b.toNat < c.toNat
        · rw [if_pos (show a.toNat < c.toNat by omega)]
        · by_cases hcb : c.toNat < b.toNat
          · rw [if_neg hbc, if_pos hcb] at h2
            exact absurd h2 (by simp)
          · rw [if_neg hbc, if_neg hcb] at h2
            rw [if_neg (show ¬ a.toNat < c.toNat by omega),
              if_neg (show ¬ c.toNat < a.toNat by omega)]
            exact charListLe_trans as bs cs h1 h2

/-- Totality of the embedded Rust string ordering on character lists. -/
theorem charListLe_total : ∀ (a b : List Char),
    (charListLe a b || charListLe b a) = true
  | [], b => by simp [charListLe]
  | _ :: _, [] => by simp [charListLe]
  | a :: as, b :: bs => by
    simp only [charListLe]
    rcases Nat.lt_trichotomy a.toNat b.toNat with h | h | h
    · rw [if_pos h]
      simp
    · rw [if_neg (by omega), if_neg (by omega), if_neg (by omega), if_neg (by omega)]
      exact charListLe_total as bs
    · rw [if_neg (show ¬ a.toNat < b.toNat by omega), if_pos h, if_pos h]
      rfl

/-- Transitivity of the string ordering used by the model-list sorts. -/
theorem strLe_trans (a b c : String) :
    strLe a b = true → strLe b c = true → strLe a c = true :=
  charListLe_trans a.toList b.toList c.toList

/-- Totality of the string ordering used by the model-list sorts. -/
theorem strLe_total (a b : String) : (strLe a b || strLe b a) = true :=
  charListLe_total a.toList b.toList

unseal List.merge List.mergeSort in
/-- C5 counterexample: a listing response naming the same model twice
yields a result containing it twice — the fetch sorts but does not
de-duplicate, so "no model identifier appears twice in the result" fails. -/
theorem C5_counterexample :
    Anthropic.fetch_supported_models_async
        (Json.obj [("models", Json.arr [Json.str "a", Json.str "a"])])
      = .ok (some ["a", "a"]) ∧
    (["a", "a"] : List String).count "a" = 2 :=
  ⟨rfl, by decide⟩

/-- C5 amended: for both backends, a successful model list is sorted under
the Rust string ordering and is a permutation of the ids extracted from the
listing response — duplicates preserved, not removed. -/
theorem C5_sorted_perm :
    (∀ j l, Anthropic.fetch_supported_models_async j = .ok (some l) →
      l.Pairwise (fun x y => strLe x y = true) ∧
      ∃ a, (j.get "models").bind Json.asArray = some a ∧
        l.Perm (a.filterMap Anthropic.modelId)) ∧
    (∀ status b l, Groq.fetch_supported_models_async status b = .ok (some l) →
      l.Pairwise (fun x y => strLe x y = true) ∧
      ∃ p a, b = some p ∧ (p.get "data").bind Json.asArray = some a ∧
        l.Perm (a.filterMap (fun m => (m.get "id").bind Json.asStr))) := by
  constructor
  · intro j l h
    unfold Anthropic.fetch_supported_models_async at h
    rcases hm : (j.get "models").bind Json.asArray with _ | a
    · rw [hm] at h
      simp at h
    · rw [hm] at h
      simp only [Except.ok.injEq, Option.some.injEq] at h
      subst h
      refine ⟨?_, a, rfl, List.mergeSort_perm _ _⟩
      have := @List.sorted_mergeSort String strLe
        (fun x y z => strLe_trans x y z) (fun x y => strLe_total x y)
        (a.filterMap Anthropic.modelId)
      simpa using this
  · intro status b l h
    rcases b with _ | p
    · simp [Groq.fetch_supported_models_async] at h
    · unfold Groq.fetch_supported_models_async at h
      dsimp only at h
      rcases he : p.get "error" with _ | e
      · rw [he] at h
        by_cases hs : status = 200
        · rw [if_pos hs] at h
          rcases hd : (p.get "data").bind Json.asArray with _ | a
          · rw [hd] at h
            simp at h
          · rw [hd] at h
            simp only [Except.ok.injEq, Option.some.injEq] at h
            subst h
            refine ⟨?_, p, a, rfl, hd, List.mergeSort_perm _ _⟩
            have := @List.sorted_mergeSort String strLe
              (fun x y z => strLe_trans x y z) (fun x y => strLe_total x y)
              (a.filterMap (fun m => (m.get "id").bind Json.asStr))
            simpa using this
        · rw [if_neg hs] at h
          simp at h
      · rw [he] at h
        simp at h

unseal List.merge List.mergeSort in
/-- Witness for the amended C5, instantiating both backends on two-element
listings that arrive out of order. -/
theorem C5_sorted_perm_witness :
    ((["m1", "m2"] : List String).Pairwise (fun x y => strLe x y = true) ∧
      ∃ a, ((Json.obj [("models", Json.arr [Json.str "m2", Json.str "m1"])]).get
          "models").bind Json.asArray = some a ∧
        (["m1", "m2"] : List String).Perm (a.filterMap Anthropic.modelId)) ∧
    ((["g1", "g2"] : List String).Pairwise (fun x y => strLe x y = true) ∧
      ∃ p a, (some (Json.obj [("data", Json.arr [Json.obj [("id", Json.str "g2")],
          Json.obj [("id", Json.str "g1")]])]) : Option Json) = some p ∧
        (p.get "data").bind Json.asArray = some a ∧
        (["g1", "g2"] : List String).Perm
          (a.filterMap (fun m => (m.get "id").bind Json.asStr))) :=
  ⟨C5_sorted_perm.1 (Json.obj [("models", Json.arr [Json.str "m2", Json.str "m1"])])
      ["m1", "m2"] (by rfl),
   C5_sorted_perm.2 200 (some (Json.obj [("data", Json.arr [Json.obj [("id", Json.str "g2")],
      Json.obj [("id", Json.str "g1")]])])) ["g1", "g2"] (by rfl)⟩

/-- Reflexivity of the optional-count order. -/
theorem optLe_refl (a : Option Int) : optLe a a := by
  cases a <;> simp [optLe]

/-- Transitivity of the optional-count order. -/
theorem optLe_trans {a b c : Option Int} (h1 : optLe a b) (h2 : optLe b c) :
    optLe a c := by
  match a, b, c with
  | none, _, _ => exact trivial
  | some v, none, _ => exact h1.elim
  | some v, some w, none => exact h2.elim
  | some v, some w, some u => exact le_trans h1 h2

/-- Reflexivity of the tracker monotonicity relation. -/
theorem trackerMono_refl (t : TokenTracker) : trackerMono t t :=
  ⟨optLe_refl _, optLe_refl _, optLe_refl _, id, id⟩

/-- Transitivity of the tracker monotonicity relation. -/
theorem trackerMono_trans {t u v : TokenTracker}
    (h1 : trackerMono t u) (h2 : trackerMono u v) : trackerMono t v :=
  ⟨optLe_trans h1.1 h2.1, optLe_trans h1.2.1 h2.2.1, optLe_trans h1.2.2.1 h2.2.2.1,
   fun h => h2.2.2.2.1 (h1.2.2.2.1 h), fun h => h2.2.2.2.2 (h1.2.2.2.2 h)⟩

/-- Adding a non-negative (or unknown) delta never decreases a field. -/
theorem addField_mono (a d : Option Int) (hd : optNonneg d) :
    optLe a (Usage.addField a d) := by
  match a, d with
  | none, none => exact trivial
  | none, some w => exact trivial
  | some v, none =>
    show v ≤ v + 0
    omega
  | some v, some w =>
    have := hd w rfl
    show v ≤ v + w
    omega

/-- `update_usage` with a field-wise non-negative delta is monotone. -/
theorem update_usage_mono (t : TokenTracker) (pu : ProviderUsage)
    (h : pu.usage.nonneg) : trackerMono t (t.update_usage pu) := by
  obtain ⟨h1, h2, h3⟩ := h
  exact ⟨addField_mono _ _ h1, addField_mono _ _ h2, addField_mono _ _ h3,
    fun hf => hf, fun hf => hf⟩

/-- Second projection of the message-building branches of `check_warning`. -/
theorem snd_of_match (x : Option (Int × Nat)) (f : Int → Nat → Option String)
    (t' : TokenTracker) :
    (match x with
     | some (used, limit) => (f used limit, t')
     | none => (none, t')).2 = t' := by
  rcases x with _ | ⟨u, l⟩ <;> rfl

/-- The state left behind by `check_warning` is the input state with at
most one warning flag newly set. -/
theorem check_warning_state (t : TokenTracker) :
    (t.check_warning).2 = t ∨
    (t.check_warning).2 = { t with warning_90_shown := true } ∨
    (t.check_warning).2 = { t with warning_80_shown := true } := by
  unfold TokenTracker.check_warning
  split
  · left
    rfl
  · split
    · right; left
      exact snd_of_match _ _ _
    · split
      · right; right
        exact snd_of_match _ _ _
      · left
        rfl

/-- `check_warning` is monotone on the tracker state. -/
theorem check_warning_mono (t : TokenTracker) : trackerMono t (t.check_warning).2 := by
  rcases check_warning_state t with h | h | h <;> rw [h]
  · exact trackerMono_refl t
  · exact ⟨optLe_refl _, optLe_refl _, optLe_refl _, fun h80 => h80, fun _ => rfl⟩
  · exact ⟨optLe_refl _, optLe_refl _, optLe_refl _, fun _ => rfl, fun h90 => h90⟩

/-- Every single non-`reset` operation is monotone. -/
theorem step_mono (t : TokenTracker) (op : TrackerOp)
    (h : ∀ pu, op = .update pu → pu.usage.nonneg) :
    trackerMono t (TrackerOp.apply t op) := by
  cases op with
  | update pu => exact update_usage_mono t pu (h pu rfl)
  | setLimit n => exact ⟨optLe_refl _, optLe_refl _, optLe_refl _, id, id⟩
  | checkWarning => exact check_warning_mono t
  | queryPercentage => exact trackerMono_refl t
  | queryCounts => exact trackerMono_refl t
  | queryStatus => exact trackerMono_refl t

/-- C6: over every sequence of non-`reset` tracker operations whose usage
deltas are field-wise non-negative, each known usage field never decreases
and each warning flag, once true, remains true. -/
theorem C6_monotone (t : TokenTracker) (ops : List TrackerOp)
    (h : ∀ pu, TrackerOp.update pu ∈ ops → pu.usage.nonneg) :
    trackerMono t (TrackerOp.run t ops) := by
  induction ops generalizing t with
  | nil => exact trackerMono_refl t
  | cons op rest ih =>
    refine trackerMono_trans (step_mono t op ?_) (ih (TrackerOp.apply t op) ?_)
    · intro pu hop
      exact h pu (by rw [hop]; exact List.mem_cons_self _ _)
    · intro pu hmem
      exact h pu (List.mem_cons_of_mem _ hmem)

/-- Witness for C6 on a concrete four-operation run from a fresh tracker. -/
theorem C6_monotone_witness :
    trackerMono TokenTracker.new
      (TrackerOp.run TokenTracker.new
        [.update ⟨"claude-3-5-sonnet-latest", ⟨some 10, some 5, some 15⟩⟩,
         .setLimit 1000, .checkWarning, .queryPercentage]) :=
  C6_monotone _ _ (by
    intro pu h
    simp only [List.mem_cons, List.not_mem_nil, or_false] at h
    rcases h with h | h | h | h
    · cases h
      refine ⟨?_, ?_, ?_⟩ <;> (intro v hv; cases hv; decide)
    · cases h
    · cases h
    · cases h)

end Goose


